import Mathlib

/-!
Shallow embedding of `src/py/solitaireSort.py` (+ `solitaireSortRules.py`).

Python runtime errors (TypeError, IndexError, AttributeError, AssertionError,
UnboundLocalError) are modelled as `Except String` errors; a raised error
propagates and discards the half-updated object state, matching the fact that
the top-level `solitaireSort` installs no exception handler.

Python cards are one-character strings (`/^[A2-90JQK]$/`), modelled as `Char`.
-/

namespace Solitaire

abbrev Card := Char

/-- Python `numify` inside `compareCard` evaluates `"A234567890JQK".find(x)` but has
no `return` statement, so for every argument the computed index is discarded and the
function returns `None`.  We model its result as `Option Int`, always `none`. -/
def numify (_x : Card) : Option Int := none

/-- Python `compareCard(a, b)` returns `numify(b) - numify(a)`.  Since `numify`
returns `None`, the subtraction `None - None` raises TypeError. -/
def compareCard (a b : Card) : Except String Int :=
  match numify b, numify a with
  | some nb, some na => .ok (nb - na)
  | _, _ => .error "TypeError"

/-- Python `stackable(a, b)` returns `compareCard(a, b) == 1`. -/
def stackable (a b : Card) : Except String Bool :=
  match compareCard a b with
  | .ok d => .ok (d == 1)
  | .error e => .error e

/-- An element of a `FieldStack`'s `_cards` list.  `push_to_top` appends either a
single card (a string) or, when handed a Python list, the list itself as one
element (see `FieldStack.push_to_top`), so the list is heterogeneous. -/
inductive FieldElem where
  | card (c : Card)
  | list (l : List Card)
deriving DecidableEq, Repr

/-- Python truthiness of a `FieldElem`: a card is a non-empty one-character string
(truthy); a list value is truthy iff non-empty. -/
def FieldElem.truthy : FieldElem → Bool
  | .card _ => true
  | .list l => !l.isEmpty

/-- The `cards: Card | list[Card]` argument shape taken by the push operations. -/
inductive PushArg where
  | one (c : Card)
  | many (l : List Card)
deriving DecidableEq, Repr

/-- Python `stackable` applied to field elements: `str.find` on a list argument
raises TypeError, and on card arguments `stackable` itself raises TypeError. -/
def stackableE : FieldElem → FieldElem → Except String Bool
  | .card a, .card b => stackable a b
  | _, _ => .error "TypeError"

/-- Python list indexing `l[i]` for an `int` index: non-negative indices must be
`< len`, negative indices count from the back; otherwise IndexError (`none`). -/
def pyIndexF (l : List FieldElem) (i : Int) : Option FieldElem :=
  if 0 ≤ i then l.get? i.toNat
  else if 0 ≤ (l.length : Int) + i then l.get? ((l.length : Int) + i).toNat
  else none

/-- Python tail slice `l[-n:]`.  For `n = 0` this is `l[0:]`, the whole list
(the `-0` quirk); for `n ≥ 1` it is the last `n` elements (clamped). -/
def pyTail {α : Type} (l : List α) (n : Nat) : List α :=
  if n = 0 then l else l.drop (l.length - n)

/-- Python slice `l[:-n]`.  For `n = 0` this is `l[:0] = []` (the `-0` quirk);
for `n ≥ 1` it drops the last `n` elements (clamped). -/
def pyDropTail {α : Type} (l : List α) (n : Nat) : List α :=
  if n = 0 then [] else l.take (l.length - n)

/-- Python class `FieldStack`: `_cards` (bottom = front, top = back) and the
`face_up` count of public cards counted from the top. -/
structure FieldStack where
  _cards : List FieldElem
  face_up : Nat
deriving DecidableEq, Repr

/-- Python `FieldStack.__init__(cards, face_up)` with an explicit (fresh) card
list; it asserts `face_up <= num_cards`.  (Instances built with the default
argument share one module-level list object; see `Game.init`.) -/
def FieldStack.init (cards : List FieldElem) (face_up : Nat) :
    Except String FieldStack :=
  if face_up ≤ cards.length then .ok ⟨cards, face_up⟩ else .error "AssertionError"

/-- Python `get_num_cards` / the `num_cards` property. -/
def FieldStack.get_num_cards (s : FieldStack) : Nat := s._cards.length

/-- Python `get_face_down` executes `self.num_cards() - self.face_up`;
`self.num_cards` is the property's value (an `int`), and calling an `int`
raises TypeError before anything is computed. -/
def FieldStack.get_face_down (_s : FieldStack) : Except String Nat :=
  .error "TypeError"

/-- The loop body of `get_moveable`: `for i in range(1, self.face_up)` reads
`self._cards[self.get_num_cards() - (i - 1)]` and `self._cards[self.get_num_cards() - i]`
and stops at the first non-stackable pair.  At `i = 1` the first index equals
`num_cards`, which is out of range. -/
def get_moveableLoop (s : FieldStack) : List Nat → Except String Nat
  | [] => .ok s.face_up
  | i :: rest =>
    match pyIndexF s._cards ((s._cards.length : Int) - ((i : Int) - 1)) with
    | none => .error "IndexError"
    | some card_prev =>
      match pyIndexF s._cards ((s._cards.length : Int) - (i : Int)) with
      | none => .error "IndexError"
      | some card_curr =>
        match stackableE card_prev card_curr with
        | .error e => .error e
        | .ok b => if !b then .ok i else get_moveableLoop s rest

/-- Python `get_moveable` / the `moveable` property: iterates `i` over
`range(1, face_up)` and returns `face_up` if the loop finishes. -/
def FieldStack.get_moveable (s : FieldStack) : Except String Nat :=
  get_moveableLoop s (List.range' 1 (s.face_up - 1))

/-- Python `get_moveable_cards` / the `moveable_cards` property:
`self._cards[-self.moveable:]` (note the `-0` slice quirk when `moveable = 0`). -/
def FieldStack.get_moveable_cards (s : FieldStack) : Except String (List FieldElem) :=
  match s.get_moveable with
  | .error e => .error e
  | .ok m => .ok (pyTail s._cards m)

/-- The three-way result of `FieldStack.get_top_card`: `None` (no cards),
`False` (top card face down), or the top element. -/
inductive TopCard where
  | noCards
  | faceDown
  | top (e : FieldElem)
deriving DecidableEq, Repr

/-- Python `get_top_card` / the `top_card` property. -/
def FieldStack.get_top_card (s : FieldStack) : TopCard :=
  if s.get_num_cards = 0 then .noCards
  else if s.face_up = 0 then .faceDown
  else match s._cards.getLast? with
    | some e => .top e
    | none => .noCards

/-- Python `FieldStack.push_to_top(cards)`.  The guard `cards is list` is an
identity test against the type object `list`, which is False for every card and
every list value, so the `else` branch always runs: the argument is appended as
ONE element (`self._cards.append(cards)`) and `face_up` increases by 1.  The
zero-cards warning branch is unreachable. -/
def FieldStack.push_to_top (s : FieldStack) (cards : PushArg) : FieldStack :=
  match cards with
  | .one c => ⟨s._cards ++ [.card c], s.face_up + 1⟩
  | .many l => ⟨s._cards ++ [.list l], s.face_up + 1⟩

/-- The `n: int | None` argument of `pull_from_top`. -/
inductive PullArg where
  | undef
  | num (n : Nat)
deriving DecidableEq, Repr

/-- The result of `pull_from_top`: a single popped element or a slice. -/
inductive PullResult where
  | single (e : FieldElem)
  | slice (l : List FieldElem)
deriving DecidableEq, Repr

/-- Python `FieldStack.pull_from_top(n)`:  `None` pops the single top element
(asserting non-emptiness); `0` warns and returns `[]`; otherwise it asserts
`n <= num_cards` and `n <= face_up` and removes the top `n` elements.  Note it
never adjusts `face_up`. -/
def FieldStack.pull_from_top (s : FieldStack) : PullArg → Except String (PullResult × FieldStack)
  | .undef =>
    match s._cards.getLast? with
    | some e => .ok (.single e, ⟨s._cards.dropLast, s.face_up⟩)
    | none => .error "AssertionError"
  | .num 0 => .ok (.slice [], s)
  | .num (n+1) =>
    if n + 1 ≤ s.get_num_cards ∧ n + 1 ≤ s.face_up then
      .ok (.slice (pyTail s._cards (n+1)), ⟨pyDropTail s._cards (n+1), s.face_up⟩)
    else .error "AssertionError"

/-- Python `FieldStack.reveal(n)`: evaluates `self.face_down`, whose getter
raises TypeError, before touching `face_up`. -/
def FieldStack.reveal (s : FieldStack) (n : Nat) : Except String FieldStack :=
  match s.get_face_down with
  | .error e => .error e
  | .ok fd => if n ≤ fd then .ok { s with face_up := s.face_up + n }
              else .error "AssertionError"

/-- Python `FieldStack.conceal(n)`: asserts `n <= face_up` then decrements. -/
def FieldStack.conceal (s : FieldStack) (n : Nat) : Except String FieldStack :=
  if n ≤ s.face_up then .ok { s with face_up := s.face_up - n }
  else .error "AssertionError"

/-- The documented FieldStack invariant `0 ≤ face_up ≤ total` (the lower bound
is automatic for `Nat`). -/
def FieldStack.inv (s : FieldStack) : Prop := s.face_up ≤ s._cards.length

instance (s : FieldStack) : Decidable s.inv := by
  unfold FieldStack.inv; infer_instance

/-- Python class `FoundationStack`: `__init__` executes `self._cards = cards,` —
the trailing comma builds a ONE-TUPLE wrapping the card list, so `_cards` is a
tuple holding one list, not a list of cards. -/
structure FoundationStack where
  _cards : List (List Card)
deriving DecidableEq, Repr

/-- Python `FoundationStack.__init__(cards)`: stores the 1-tuple `(cards,)`. -/
def FoundationStack.init (cards : List Card) : FoundationStack := ⟨[cards]⟩

/-- Python `get_num_cards`: `len(self._cards)` is the length of the tuple. -/
def FoundationStack.get_num_cards (s : FoundationStack) : Nat := s._cards.length

/-- Python `FoundationStack.push_to_top(cards)`.  `cards is list` is an identity
test against the type object and is False for every card and every list value,
so control always reaches `self._cards.append(cards)`; `_cards` is a tuple and
tuples have no `append`, so AttributeError is raised and nothing changes.  No
out-of-order comparison is ever made. -/
def FoundationStack.push_to_top (_s : FoundationStack) (_cards : PushArg) :
    Except String FoundationStack :=
  .error "AttributeError"

/-- Python `FoundationStack.get_all_cards`: `self._cards.copy()` — tuples have
no `copy` method, so AttributeError. -/
def FoundationStack.get_all_cards (_s : FoundationStack) :
    Except String (List (List Card)) :=
  .error "AttributeError"

/-- Python class `Deck`: a queue, front = bottom, back = top. -/
structure Deck where
  _cards : List Card
deriving DecidableEq, Repr

/-- Python `get_num_cards` for `Deck`. -/
def Deck.get_num_cards (d : Deck) : Nat := d._cards.length

/-- Python `Deck.pushToBottom(cards)`: `cards.extend(self._cards)` then
`self._cards = cards`, so the batch ends up in front of the old contents. -/
def Deck.pushToBottom (d : Deck) (cards : List Card) : Deck :=
  ⟨cards ++ d._cards⟩

/-- Python `Deck.pullFromTop(n)`: asserts `n <= num_cards`, returns
`self._cards[-n:]` and keeps `self._cards[:-n]` (with the `-0` slice quirk:
`pullFromTop(0)` returns the whole deck and keeps nothing). -/
def Deck.pullFromTop (d : Deck) (n : Nat) : Except String (List Card × Deck) :=
  if n ≤ d._cards.length then
    .ok (pyTail d._cards n, ⟨pyDropTail d._cards n⟩)
  else .error "AssertionError"

/-- One swap `self._cards[i], self._cards[j] = self._cards[j], self._cards[i]`. -/
def listSwap (l : List Card) (i j : Nat) : List Card :=
  match l.get? i, l.get? j with
  | some a, some b => (l.set i b).set j a
  | _, _ => l

/-- The shuffle loop `for i in reversed(range(n)): j = randint(0, i); swap`.
The injected entropy `js` supplies one value per iteration; `randint(0, i)` is
modelled as that value reduced mod `i + 1`.  `k` counts down: index `i = k - 1`. -/
def shuffleFrom : List Card → List Nat → Nat → List Card
  | cards, _, 0 => cards
  | cards, js, k + 1 => shuffleFrom (listSwap cards k (js.headD 0 % (k + 1))) js.tail k

/-- Python `Deck.shuffle()` with the random draws injected as `js`. -/
def Deck.shuffle (d : Deck) (js : List Nat) : Deck :=
  ⟨shuffleFrom d._cards js d._cards.length⟩

/-- Ruleset constant `HAND_SIZE_MAX` from `solitaireSortRules.py`. -/
def HAND_SIZE_MAX : Nat := 3

/-- Ruleset constant `HAND_ALLOW_RANDOM_ACCESS` from `solitaireSortRules.py`. -/
def HAND_ALLOW_RANDOM_ACCESS : Bool := true

/-- Python class `Hand`: a bounded buffer (front = bottom, back = top). -/
structure Hand where
  _cards : List Card
deriving DecidableEq, Repr

/-- Python `Hand.__init__(cards)`: asserts `len(cards) <= HAND_SIZE_MAX`. -/
def Hand.init (cards : List Card) : Except String Hand :=
  if cards.length ≤ HAND_SIZE_MAX then .ok ⟨cards⟩ else .error "AssertionError"

/-- Python `get_num_cards` for `Hand`. -/
def Hand.get_num_cards (h : Hand) : Nat := h._cards.length

/-- Python `Hand.pull()`: the assert `self.get_num_cards > 0` compares a bound
method with an int, which is truthy-ish in CPython?  No: `method > 0` raises
TypeError in Python 3.  So `pull` raises TypeError before popping. -/
def Hand.pull (_h : Hand) : Except String Card :=
  .error "TypeError"

/-- Python `Hand.draw(deck)`: pushes the hand's whole contents to the deck's
bottom (`pushToBottom` mutates the passed list in place and aliases it), then
refills with `min(HAND_SIZE_MAX, deck.num_cards)` cards pulled from the top. -/
def Hand.draw (h : Hand) (d : Deck) : Except String (Hand × Deck) :=
  Except.map (fun pd => (⟨pd.1⟩, pd.2))
    ((d.pushToBottom h._cards).pullFromTop
      (min HAND_SIZE_MAX (d.pushToBottom h._cards).get_num_cards))

/-- A tiny heap of Python list objects, needed because every `FieldStack()`
constructed with the default argument shares the single module-level default
list object (`def __init__(self, cards: list[Card] = [], ...)`). -/
structure PyHeap where
  cells : List (List FieldElem)
deriving DecidableEq, Repr

/-- Read the list object at address `a`. -/
def PyHeap.read (h : PyHeap) (a : Nat) : List FieldElem := h.cells.getD a []

/-- Overwrite (in place) the list object at address `a`. -/
def PyHeap.write (h : PyHeap) (a : Nat) (l : List FieldElem) : PyHeap :=
  ⟨h.cells.set a l⟩

/-- A `FieldStack` whose `_cards` attribute is a reference into the heap:
`cardsA` is the address of the underlying list object. -/
structure FieldStackR where
  cardsA : Nat
  face_up : Nat
deriving DecidableEq, Repr

/-- Dereference: the `FieldStack` value currently observed through `s`. -/
def FieldStackR.view (s : FieldStackR) (h : PyHeap) : FieldStack :=
  ⟨h.read s.cardsA, s.face_up⟩

/-- Heap-level `push_to_top`: `list.append` / `list.extend` mutate the shared
list object in place, so the write is visible through every alias. -/
def FieldStackR.push_to_top (h : PyHeap) (s : FieldStackR) (arg : PushArg) :
    PyHeap × FieldStackR :=
  let v := (s.view h).push_to_top arg
  (h.write s.cardsA v._cards, { s with face_up := v.face_up })

/-- Python class `Game`: one deck, one hand, one foundation stack, eight field
stacks.  All eight `FieldStack()` calls use the default argument, so all eight
reference the same list object (address 0 in a fresh module heap). -/
structure Game where
  heap : PyHeap
  deck : Deck
  hand : Hand
  foundation : List FoundationStack
  field : List FieldStackR
deriving DecidableEq, Repr

/-- Python `Game.__init__(deck)` run against a freshly loaded module: cell 0 is
the (initially empty) shared `FieldStack.__init__` default list. -/
def Game.init (cards : List Card) : Game :=
  { heap := ⟨[[]]⟩
  , deck := ⟨cards⟩
  , hand := ⟨[]⟩
  , foundation := [FoundationStack.init []]
  , field := List.replicate 8 ⟨0, 0⟩ }

/-- Error-propagating fold over a list of indices. -/
def exceptFoldNat {α : Type} (f : α → Nat → Except String α) : α → List Nat → Except String α
  | a, [] => .ok a
  | a, i :: rest =>
    match f a i with
    | .error e => .error e
    | .ok a2 => exceptFoldNat f a2 rest

/-- Python `Game._deal_to_field()`: for each column `i`, pull `i + 1` cards
from the deck and `push_to_top` them.  The pulled batch is a list, so it is
appended as a single element of the shared list (see `FieldStack.push_to_top`). -/
def Game.deal_to_field (g0 : Game) : Except String Game :=
  exceptFoldNat
    (fun g i =>
      match g.deck.pullFromTop (i + 1) with
      | .error e => .error e
      | .ok (pulled, d2) =>
        match g.field.get? i with
        | none => .error "IndexError"
        | some s =>
          let (hp, s2) := FieldStackR.push_to_top g.heap s (.many pulled)
          .ok { g with deck := d2, heap := hp, field := g.field.set i s2 })
    g0 (List.range g0.field.length)

/-- Python `Game.setup()`: shuffles the deck, then calls `self.deal_to_field()`.
`Game` has no attribute `deal_to_field` — the method is named `_deal_to_field` —
so every call raises AttributeError right after the shuffle. -/
def Game.setup (g : Game) (js : List Nat) : Except String Game :=
  let _g1 : Game := { g with deck := g.deck.shuffle js }
  .error "AttributeError"

/-- Python `Game.visualize()`: the nested `group` function executes
`indent += 1` on the enclosing local without a `nonlocal` declaration, so the
very first `group("snapshot")` call raises UnboundLocalError. -/
def Game.visualize (_g : Game) : Except String Unit :=
  .error "UnboundLocalError"

/-- What a candidate's `exec` closure would do, recorded as data. -/
inductive MoveDesc where
  | transfer (srcIdx destIdx num : Nat)
  | handDump
deriving DecidableEq, Repr

/-- A candidate move as built by `_get_move_options`: a Python dict with keys
`score`, `exec` and (for field moves only) `debug`. -/
structure GameActionD where
  score : Nat
  act : MoveDesc
  dbg : Option String
deriving DecidableEq, Repr

/-- Python `GameStatus`. -/
inductive GameStatus where
  | LOSS
  | PLAYING
  | WIN
deriving DecidableEq, Repr

/-- The inner scan `for num in range(moveable): if stackable(dest_top, moveable_cards[num])`,
returning the first matching index (the loop then breaks). -/
def innerScanLoop (dest_top : FieldElem) (mcards : List FieldElem) :
    List Nat → Except String (Option Nat)
  | [] => .ok none
  | num :: rest =>
    match mcards.get? num with
    | none => .error "IndexError"
    | some mc =>
      match stackableE dest_top mc with
      | .error e => .error e
      | .ok true => .ok (some num)
      | .ok false => innerScanLoop dest_top mcards rest

/-- Candidates contributed by one ordered pair `(src, dest)`.  `src == dest` is
object identity, i.e. equal slot index; a falsy `dest_top` (`None`, `False`, or
an empty-list element) makes the pair skip. -/
def pairOptions (g : Game) (srcIdx : Nat) (mcards : List FieldElem) (destIdx : Nat) :
    Except String (List GameActionD) :=
  if srcIdx = destIdx then .ok []
  else
    match ((g.field.getD destIdx ⟨0, 0⟩).view g.heap).get_top_card with
    | .noCards => .ok []
    | .faceDown => .ok []
    | .top e =>
      if e.truthy then
        match innerScanLoop e mcards (List.range mcards.length) with
        | .error err => .error err
        | .ok (some num) => .ok [⟨1, .transfer srcIdx destIdx (num + 1), some "Move "⟩]
        | .ok none => .ok []
      else .ok []

/-- Candidates contributed by one source column: `moveable_cards` is computed
once (and may raise), then every destination is tried in field order. -/
def srcOptions (g : Game) (srcIdx : Nat) : Except String (List GameActionD) :=
  match ((g.field.getD srcIdx ⟨0, 0⟩).view g.heap).get_moveable_cards with
  | .error e => .error e
  | .ok mcards =>
    exceptFoldNat
      (fun acc destIdx =>
        match pairOptions g srcIdx mcards destIdx with
        | .error e => .error e
        | .ok new => .ok (acc ++ new))
      [] (List.range g.field.length)

/-- Python `Gamer._get_move_options()`.  The dangling
`if (Hand.is_random_access): self._game.hand.cards_in_hand` at the top
evaluates a property object (always truthy) and discards a copy of the hand —
no effect.  After the field-pair scan, a non-empty hand appends the
unconditional score-999 hand-dump candidate. -/
def Gamer.get_move_options (g : Game) : Except String (List GameActionD) :=
  match
    exceptFoldNat
      (fun acc srcIdx =>
        match srcOptions g srcIdx with
        | .error e => .error e
        | .ok new => .ok (acc ++ new))
      [] (List.range g.field.length)
  with
  | .error e => .error e
  | .ok opts =>
    if g.hand.get_num_cards ≠ 0 then .ok (opts ++ [⟨999, .handDump, none⟩])
    else .ok opts

/-- Python `Gamer.try_make_move()`: with no candidates it returns `LOSS`;
otherwise it evaluates `opt.score` — but the candidates are dicts, and
attribute access on a dict raises AttributeError, so no move is executed. -/
def Gamer.try_make_move (g : Game) : Except String (GameStatus × Game) :=
  match Gamer.get_move_options g with
  | .error e => .error e
  | .ok options =>
    if options.length = 0 then .ok (.LOSS, g)
    else .error "AttributeError"

/-- The Python value returned by `play`: a card list, `False` (lost), or
`None` (control fell off the end of the function). -/
inductive PlayResult where
  | cards (l : List Card)
  | falseLoss
  | noneVal
deriving DecidableEq, Repr

/-- The body of `play` after `setup`.  The `while True` loop body runs at most
once: `LOSS` returns `False`; `PLAYING` executes `break`, after which control
falls off the end of `play`, returning `None`; `WIN` would concatenate
`stack.all_cards` over the foundation. -/
def playAfterSetup (g : Game) : Except String PlayResult :=
  match g.visualize with
  | .error e => .error e
  | .ok _ =>
    match Gamer.try_make_move g with
    | .error e => .error e
    | .ok (.LOSS, _) => .ok .falseLoss
    | .ok (.PLAYING, _) => .ok .noneVal
    | .ok (.WIN, g2) =>
      match exceptFoldNat
          (fun acc i =>
            match g2.foundation.get? i with
            | none => .error "IndexError"
            | some st =>
              match st.get_all_cards with
              | .error e => .error e
              | .ok ls => .ok (acc ++ ls.flatten))
          [] (List.range g2.foundation.length) with
      | .error e => .error e
      | .ok flat => .ok (.cards flat)

/-- Python `play(data)`: builds the game, runs `setup` (whose AttributeError
propagates), then the loop. -/
def play (data : List Card) (js : List Nat) : Except String PlayResult :=
  let game := Game.init data
  match game.setup js with
  | .error e => .error e
  | .ok g1 => playAfterSetup g1

/-- Python `solitaireSort(data, rules)`: calls `play(data.copy())` and returns
`sorted or data` — Python `or` yields `data` whenever `sorted` is falsy
(`False`, `None`, or an empty list).  Exceptions are not caught. -/
def solitaireSort (data : List Card) (js : List Nat) : Except String (List Card) :=
  match play data js with
  | .error e => .error e
  | .ok r =>
    match r with
    | .cards l => .ok (if l.isEmpty then data else l)
    | .falseLoss => .ok data
    | .noneVal => .ok data

/-! Concrete inputs and checks used by the claim theorems. -/

/-- A 36-card input deck (three runs of ranks plus ten more). -/
def deck36 : List Card := ("A234567890JQKA234567890JQKA234567890").toList

/-- After running `_deal_to_field` on a fresh 36-card game, every one of the
eight field columns observes the same `_cards` contents and reports 8 elements
(each dealt batch was appended as one list element to the single shared list). -/
def dealSharingCheck : Bool :=
  match Game.deal_to_field (Game.init deck36) with
  | .error _ => false
  | .ok g =>
    ((List.range 8).all fun j =>
        decide ((((g.field.getD j ⟨0, 0⟩).view g.heap)._cards)
          = (((g.field.getD 0 ⟨0, 0⟩).view g.heap)._cards)))
    && ((List.range 8).all fun j =>
        (((g.field.getD j ⟨0, 0⟩).view g.heap)._cards).length == 8)

/-- A reachable-shaped stuck game: eight empty field columns (sharing the fresh
default list) and a one-card hand, so `_get_move_options` returns exactly the
unconditional hand-dump candidate. -/
def gStuck : Game :=
  { heap := ⟨[[]]⟩
  , deck := ⟨[]⟩
  , hand := ⟨['A']⟩
  , foundation := [FoundationStack.init []]
  , field := List.replicate 8 ⟨0, 0⟩ }

/-- Helper: `getD` on a replicated list with the replicated element as default. -/
theorem getD_replicate_fsr (n j : Nat) (x : FieldStackR) :
    (List.replicate n x).getD j x = x := by
  induction n generalizing j with
  | zero => simp [List.getD]
  | succ m ih =>
    cases j with
    | zero => simp [List.replicate_succ]
    | succ k => simp [List.replicate_succ, ih k]

/-! Claim theorems. -/

/-- C1: the claim says that on a Loss the top-level sort returns the input
unchanged.  In the code, `play` calls `game.setup()`, which raises
AttributeError (`Game` has no attribute `deal_to_field`; the method is
`_deal_to_field`), so `solitaireSort` raises for every input and every
entropy sequence and never returns at all. -/
theorem solitaireSort_always_raises (data : List Card) (js : List Nat) :
    solitaireSort data js = Except.error "AttributeError" := rfl

/-- C2: the claim says the moveable run of face-up ranks bottom-to-top
`[2,3,4,8]` is `[8]` (length 1).  In the code, `get_moveable` reads
`self._cards[self.get_num_cards() - (i - 1)]`, which at `i = 1` is
`self._cards[num_cards]`, out of range, so the call raises IndexError for any
stack with `face_up ≥ 2` instead of returning 1. -/
theorem get_moveable_index_error :
    FieldStack.init [.card '2', .card '3', .card '4', .card '8'] 4
      = Except.ok ⟨[.card '2', .card '3', .card '4', .card '8'], 4⟩
    ∧ FieldStack.get_moveable ⟨[.card '2', .card '3', .card '4', .card '8'], 4⟩
      = Except.error "IndexError" := ⟨rfl, rfl⟩

/-- C3: the claim says only out-of-order pushes raise the "out of order" error
and in-order pushes succeed.  In the code, `FoundationStack.__init__` stores
the 1-tuple `(cards,)` and `cards is list` is always False, so EVERY push —
including an in-order one — reaches `tuple.append` and raises AttributeError;
no order check exists anywhere. -/
theorem foundation_push_attribute_error (s : FoundationStack) (arg : PushArg) :
    s.push_to_top arg = Except.error "AttributeError" := rfl

/-- C4: `Hand.draw` returns the hand's whole contents to the deck's bottom and
refills from the deck's top, so the new hand size is
`min(HAND_SIZE_MAX, d + h)`, the new deck size is the remainder, and the
combined contents are preserved (no partial retention). -/
theorem hand_draw_atomic (h : Hand) (d : Deck)
    (hh : h._cards.length ≤ HAND_SIZE_MAX) :
    ∃ h2 d2, h.draw d = Except.ok (h2, d2)
      ∧ h2._cards.length = min HAND_SIZE_MAX (d._cards.length + h._cards.length)
      ∧ d2._cards.length = d._cards.length + h._cards.length
          - min HAND_SIZE_MAX (d._cards.length + h._cards.length)
      ∧ d2._cards ++ h2._cards = h._cards ++ d._cards := by
  have hH : HAND_SIZE_MAX = 3 := rfl
  set L : List Card := h._cards ++ d._cards with hL
  have hlen : L.length = h._cards.length + d._cards.length := by
    simp [hL]
  set n : Nat := min HAND_SIZE_MAX L.length with hn
  have hnle : n ≤ L.length := by rw [hn]; exact min_le_right _ _
  have hzero : n = 0 → L.length = 0 := by
    intro h0
    rw [hn, hH] at h0
    omega
  have hpull : Deck.pullFromTop ⟨L⟩ n = Except.ok (pyTail L n, ⟨pyDropTail L n⟩) := by
    show (if n ≤ L.length then
            Except.ok (pyTail L n, (⟨pyDropTail L n⟩ : Deck))
          else Except.error "AssertionError")
        = Except.ok (pyTail L n, (⟨pyDropTail L n⟩ : Deck))
    rw [if_pos hnle]
  have hdraw : h.draw d = Except.ok (⟨pyTail L n⟩, ⟨pyDropTail L n⟩) := by
    show Except.map (fun pd => ((⟨pd.1⟩ : Hand), pd.2))
        (Deck.pullFromTop ⟨L⟩ (min HAND_SIZE_MAX L.length))
      = Except.ok (⟨pyTail L n⟩, ⟨pyDropTail L n⟩)
    rw [← hn, hpull]
    rfl
  have hTl : (pyTail L n).length = n := by
    unfold pyTail
    by_cases h0 : n = 0
    · rw [if_pos h0, h0]
      exact hzero h0
    · rw [if_neg h0, List.length_drop]
      omega
  have hDl : (pyDropTail L n).length = L.length - n := by
    unfold pyDropTail
    by_cases h0 : n = 0
    · rw [if_pos h0, h0]
      simp [hzero h0]
    · rw [if_neg h0, List.length_take]
      omega
  have hcat : pyDropTail L n ++ pyTail L n = L := by
    unfold pyTail pyDropTail
    by_cases h0 : n = 0
    · rw [if_pos h0, if_pos h0]
      rfl
    · rw [if_neg h0, if_neg h0]
      exact List.take_append_drop _ _
  refine ⟨⟨pyTail L n⟩, ⟨pyDropTail L n⟩, hdraw, ?_, ?_, ?_⟩
  · show (pyTail L n).length = min HAND_SIZE_MAX (d._cards.length + h._cards.length)
    rw [hTl, hn, hlen, Nat.add_comm h._cards.length d._cards.length]
  · show (pyDropTail L n).length = _
    rw [hDl, hn, hlen, Nat.add_comm h._cards.length d._cards.length]
  · exact hcat

/-- C4 witness: drawing with hand `['A']` and deck `['2','3','4']`. -/
theorem hand_draw_atomic_witness :
    (Hand.mk ['A'])._cards.length ≤ HAND_SIZE_MAX
    ∧ ∃ h2 d2, (Hand.mk ['A']).draw (Deck.mk ['2', '3', '4']) = Except.ok (h2, d2)
      ∧ h2._cards.length
          = min HAND_SIZE_MAX ((Deck.mk ['2', '3', '4'])._cards.length + (Hand.mk ['A'])._cards.length)
      ∧ d2._cards.length
          = (Deck.mk ['2', '3', '4'])._cards.length + (Hand.mk ['A'])._cards.length
            - min HAND_SIZE_MAX ((Deck.mk ['2', '3', '4'])._cards.length + (Hand.mk ['A'])._cards.length)
      ∧ d2._cards ++ h2._cards = (Hand.mk ['A'])._cards ++ (Deck.mk ['2', '3', '4'])._cards :=
  ⟨by decide, hand_draw_atomic ⟨['A']⟩ ⟨['2', '3', '4']⟩ (by decide)⟩

/-- C5: the claim says `setup()` shuffles, deals the triangular layout, and
draws the hand.  In the code, `setup` calls `self.deal_to_field()`, an
attribute that does not exist (the method is `_deal_to_field`), so every
`setup` call raises AttributeError right after the shuffle and nothing is
dealt; this holds for every game and every entropy sequence. -/
theorem setup_attribute_error (g : Game) (js : List Nat) :
    Game.setup g js = Except.error "AttributeError" := rfl

/-- C6: the claim says every FieldStack operation preserves
`face_up ≤ total`.  In the code, `pull_from_top` removes the cards but never
decrements `face_up`: pulling both cards of a 2-card fully-face-up stack
leaves `face_up = 2` with 0 cards, violating the invariant. -/
theorem pull_from_top_breaks_invariant :
    FieldStack.pull_from_top ⟨[.card 'A', .card '2'], 2⟩ (.num 2)
      = Except.ok (.slice [.card 'A', .card '2'], ⟨[], 2⟩)
    ∧ ¬ FieldStack.inv ⟨([] : List FieldElem), 2⟩ := ⟨rfl, by decide⟩

/-- C7: the claim says pushing k cards appends all k of them with `face_up`
growing by k, and pushing zero cards is a warned no-op.  In the code,
`cards is list` is an identity test against the type object and is always
False, so a 2-card list is appended as ONE element with `face_up` growing by
1, and the empty list is likewise appended as an element with no warning. -/
theorem push_list_single_element :
    FieldStack.push_to_top ⟨[], 0⟩ (.many ['A', '2'])
      = ⟨[.list ['A', '2']], 1⟩
    ∧ FieldStack.push_to_top ⟨[], 0⟩ (.many []) = ⟨[.list []], 1⟩ := ⟨rfl, rfl⟩

/-- C8: the claim says `stackable(a, b)` holds iff `rank(b) = rank(a) + 1`.
In the code, `numify` has no `return` statement and yields `None`, so
`compareCard` evaluates `None - None` and raises TypeError for EVERY pair of
cards; no pair is ever reported adjacent. -/
theorem stackable_always_type_error (a b : Card) :
    stackable a b = Except.error "TypeError" := rfl

/-- C9: the claim says a non-empty candidate list leads to the best candidate
being executed and `Playing` returned.  In the code, candidates are dicts, and
`try_make_move` evaluates `opt.score` — attribute access on a dict — raising
AttributeError whenever any candidate exists (here: eight empty columns plus a
one-card hand, giving exactly the unconditional hand-dump candidate). -/
theorem try_make_move_attribute_error :
    Gamer.try_make_move gStuck = Except.error "AttributeError" := rfl

/-- C10: all eight field columns built by `Game.__init__` via `FieldStack()`
share the single module-level default list, so a card pushed onto column 0 is
observed by every column `j < 8`, and after `_deal_to_field` all eight columns
report identical contents of 8 elements. -/
theorem field_default_sharing (cards : List Card) (c : Card) (j : Nat) (hj : j < 8) :
    (FieldStackR.view ((Game.init cards).field.getD j ⟨0, 0⟩)
        (FieldStackR.push_to_top (Game.init cards).heap
          ((Game.init cards).field.getD 0 ⟨0, 0⟩) (.one c)).1)._cards
      = [.card c]
    ∧ dealSharingCheck = true := by
  constructor
  · have h1 : (Game.init cards).field.getD j ⟨0, 0⟩ = (⟨0, 0⟩ : FieldStackR) := by
      show (List.replicate 8 (⟨0, 0⟩ : FieldStackR)).getD j ⟨0, 0⟩ = ⟨0, 0⟩
      exact getD_replicate_fsr 8 j _
    have h0 : (Game.init cards).field.getD 0 ⟨0, 0⟩ = (⟨0, 0⟩ : FieldStackR) := by
      show (List.replicate 8 (⟨0, 0⟩ : FieldStackR)).getD 0 ⟨0, 0⟩ = ⟨0, 0⟩
      exact getD_replicate_fsr 8 0 _
    rw [h1, h0]
    rfl
  · rfl

/-- C10 witness: sharing observed at column 5 of a fresh one-card game. -/
theorem field_default_sharing_witness :
    (5 < 8)
    ∧ ((FieldStackR.view ((Game.init ['Q']).field.getD 5 ⟨0, 0⟩)
          (FieldStackR.push_to_top (Game.init ['Q']).heap
            ((Game.init ['Q']).field.getD 0 ⟨0, 0⟩) (.one 'A')).1)._cards
        = [.card 'A']
      ∧ dealSharingCheck = true) :=
  ⟨by decide, field_default_sharing ['Q'] 'A' 5 (by decide)⟩

end Solitaire
